import Mathlib

/-!
Verification of the CALDROS-GTO trading core (signal fusion, EV engine,
execution engine, risk manager) against its natural-language specification.

The Python source is shallowly embedded: Python floats become `ℚ`, Python
dicts become association lists over `String`, fallible operations (dict
access on a possibly-missing key, division that can raise
`ZeroDivisionError`) return `Except String`, and the sources of
nondeterminism (`np.exp`, `np.random.randint`, `random.choice`, the wall
clock `datetime.utcnow()`, the accounting collaborator) are injected through
an explicit environment record, so that every function of the source is a
pure total Lean function of its state and environment.

Times are rationals measured in minutes, matching the `timedelta(minutes=n)`
granularity of the source.
-/

namespace Caldros

/-! ## Python-dict primitives -/

/-- Lookup in an association list, modelling `d[k]` / `k in d` / `d.get(k)`
on a Python dict (keys unique, first match wins). -/
def alookup {α : Type} (l : List (String × α)) (k : String) : Option α :=
  match l with
  | [] => none
  | (k', v) :: t => if k = k' then some v else alookup t k

/-- Modelling `d[k] = v` on a Python dict: replaces the binding in place if
the key exists, otherwise appends it (insertion order preserved). -/
def aset {α : Type} (l : List (String × α)) (k : String) (v : α) :
    List (String × α) :=
  if (alookup l k).isSome then
    l.map (fun p => if p.1 = k then (k, v) else p)
  else l ++ [(k, v)]

/-- Modelling `d.pop(k, None)` when the key is present: removes the binding. -/
def aremove {α : Type} (l : List (String × α)) (k : String) :
    List (String × α) :=
  l.filter (fun p => decide (p.1 ≠ k))

/-- Modelling `state.get(key, default)` on a feature / market-state dict. -/
def fget (l : List (String × ℚ)) (k : String) (d : ℚ) : ℚ :=
  match alookup l k with
  | some v => v
  | none => d

/-- Python float division: raises `ZeroDivisionError` on a zero divisor,
otherwise exact rational division. -/
def pydiv (a b : ℚ) : Except String ℚ :=
  if b = 0 then Except.error "ZeroDivisionError" else Except.ok (a / b)

/-- Modelling `np.clip(x, lo, hi)` (for `lo ≤ hi`). -/
def npclip (x lo hi : ℚ) : ℚ := min (max x lo) hi

/-- Modelling the Python slice `l[-n:]` (the last `n` elements). -/
def lastN {α : Type} (n : Nat) (l : List α) : List α :=
  l.drop (l.length - n)

/-- A market-state / feature snapshot: a Python dict of named floats. -/
abbrev Feat := List (String × ℚ)

/-! ## Signal Engine (src/signal_engine/core.py)

`SignalEngine` holds the current per-symbol signals and a
`deque(maxlen=1000)` history.  The fusion weights come from
`config["signal_engine"]["fusion_logic"]["weights"]`; the two fields that
the source reads with `weights.get(key, 0)` (etf flow and social sentiment)
are plain fields here, a missing config key being the value 0. -/

/-- Fusion weights, one per component of `SignalEngine._fusion`.  Field
names abbreviate the config keys: breakout, momentum, whale_flow,
orderbook_imbalance, funding_flip, macro_sentiment, onchain_flow, etf_flow,
social_sentiment. -/
structure Weights where
  breakout_w : ℚ
  momentum_w : ℚ
  whale_w : ℚ
  imbalance_w : ℚ
  funding_w : ℚ
  info_w : ℚ
  onchain_w : ℚ
  etf_w : ℚ
  social_w : ℚ
deriving DecidableEq

/-- `SignalEngine._fusion(feat)`: the weighted component breakdown (a dict in
insertion order) and the total score, its sum.  Every feature is read with
`feat.get(key, 0)`. -/
def fusion (w : Weights) (feat : Feat) : List (String × ℚ) × ℚ :=
  let breakout := (if fget feat "price_velocity" 0 > 0.0005 then 1 else 0) * w.breakout_w
  let momentum := min (fget feat "volume_acceleration" 0 / 5) 1 * w.momentum_w
  let whale := min (fget feat "liquidation_heat" 0 / 10) 1 * w.whale_w
  let ob_imbalance := min |fget feat "order_imbalance" 0| 1 * w.imbalance_w
  let funding_flip := (if fget feat "funding_bias" 0 > 0 then (0.2 : ℚ) else -0.2) * w.funding_w
  let info_signal := fget feat "macro_sentiment_score" 0 * w.info_w
  let onchain := fget feat "onchain_score" 0 * w.onchain_w
  let etf_flow := fget feat "etf_flow_score" 0 * w.etf_w
  let social := fget feat "social_sentiment_score" 0 * w.social_w
  let breakdown := [("breakout", breakout), ("momentum", momentum),
    ("whale_flow", whale), ("orderbook_imbalance", ob_imbalance),
    ("funding_flip", funding_flip), ("macro_sentiment", info_signal),
    ("onchain_flow", onchain), ("etf_flow", etf_flow),
    ("social_sentiment", social)]
  (breakdown, (breakdown.map Prod.snd).sum)

/-- `SignalEngine._ev_classify(score, feat)`: a sigmoid win probability
`1/(1+e^(-6(score-activation_threshold)))`, a simplified gain/loss model,
and the coarse tier cascade.  `np.exp` is the injected `npexp`; the division
is `pydiv` (with the genuine `np.exp`, which is strictly positive, the
denominator `1 + e` can never be zero). -/
def sig_ev_classify (npexp : ℚ → ℚ) (activation_threshold : ℚ)
    (score : ℚ) (feat : Feat) : Except String (ℚ × String) := do
  let p ← pydiv 1 (1 + npexp (-6 * (score - activation_threshold)))
  let G := 1.0 + 2.5 * fget feat "volume_acceleration" 0 / 5
  let L := 1.0 + fget feat "volatility" 1.0
  let ev := p * G - (1 - p) * L - 0.0016
  let tier :=
    if ev ≥ 0.35 then "T1_explosive"
    else if ev ≥ 0.20 then "T2_strong"
    else if ev ≥ 0.10 then "T3_moderate"
    else if ev ≥ 0.03 then "T4_neutral"
    else if ev ≥ -0.02 then "T5_scalping"
    else "T6_defensive"
  return (ev, tier)

/-- One record of the signal engine's bounded history
(`self.history.append({...})` in `_compute_signals`). -/
structure SignalRecord where
  t : ℚ
  symbol : String
  score : ℚ
  ev : ℚ
  tier : String
deriving DecidableEq

/-- Appending to `deque(maxlen=1000)`: push right, evict the leftmost
(oldest) element once the capacity is exceeded. -/
def dequePush (cap : Nat) (l : List SignalRecord) (e : SignalRecord) :
    List SignalRecord :=
  let l' := l ++ [e]
  if l'.length > cap then l'.tail else l'

/-- The per-symbol signal dict produced by `SignalEngine._compute_signals`
and consumed by the EV engine through `get_signal`. -/
structure SignalData where
  signal_score : ℚ
  ev_estimate : ℚ
  tier : String
  components : List (String × ℚ)
deriving DecidableEq

/-- The body of the `_compute_signals` loop for one symbol: fuse, classify,
and push one record onto the bounded history. -/
def compute_signal_step (npexp : ℚ → ℚ) (w : Weights)
    (activation_threshold : ℚ) (now : ℚ) (symbol : String) (feat : Feat)
    (hist : List SignalRecord) :
    Except String (SignalData × List SignalRecord) := do
  let (breakdown, weighted_score) := fusion w feat
  let (ev, tier) ← sig_ev_classify npexp activation_threshold weighted_score feat
  let data : SignalData :=
    { signal_score := weighted_score, ev_estimate := ev, tier := tier,
      components := breakdown }
  let hist' := dequePush 1000 hist
    { t := now, symbol := symbol, score := weighted_score, ev := ev, tier := tier }
  return (data, hist')

/-! ## Configuration and environment -/

/-- The configuration options the core reads from `production.json`:
the Beta prior, the dynamic EV base threshold, the trade-history window,
the daily drawdown limit and the margin health threshold. -/
structure Config where
  beta_alpha : ℚ
  beta_beta : ℚ
  base_threshold : ℚ
  trade_window : Nat
  daily_drawdown_limit : ℚ
  margin_health_threshold : ℚ
deriving DecidableEq

/-- The external world as seen by one execution cycle: the wall clock
`datetime.utcnow()` (in minutes), the accounting collaborator
(`get_available_balance`, `get_equity`, `get_equity_peak`,
`get_margin_ratio` — the last one is the field `margin_level`), `np.exp`,
`np.random.randint`, the coin flip of `_position_profitable`
(`random.choice([True, False])`), and the signal engine's current signals
(`get_signal` returns `{}`, here `none`, for an unknown symbol). -/
structure Env where
  now : ℚ
  balance : ℚ
  equity : ℚ
  equity_peak : ℚ
  margin_level : ℚ
  npexp : ℚ → ℚ
  randint : Nat → Nat → Nat
  profitable : String → Bool
  signals : String → Option SignalData

/-! ## Risk Manager (src/risk_management/manager.py) -/

/-- The mutable state of `RiskManager`: drawdown history, consecutive-loss
counter, breaker flag and last trigger time (`None` before any trigger). -/
structure RiskState where
  drawdown_history : List ℚ
  loss_streak : Nat
  circuit_breaker_active : Bool
  last_trigger_time : Option ℚ
deriving DecidableEq

/-- `RiskManager._trigger_circuit_breaker(reason)`: arm the breaker and
stamp the trigger time with the current clock. -/
def trigger_circuit_breaker (now : ℚ) (st : RiskState) : RiskState :=
  { st with circuit_breaker_active := true, last_trigger_time := some now }

/-- `RiskManager.check_circuit_breaker()`: `False` when the breaker is
inactive; once active, lazily deactivates (and resets the loss streak) when
strictly more than 180 minutes have elapsed since the trigger, else `True`.
Subtracting from a `None` trigger time would raise in Python; the breaker is
only ever activated together with a trigger time. -/
def check_circuit_breaker (now : ℚ) (st : RiskState) :
    Except String (Bool × RiskState) :=
  if ¬ st.circuit_breaker_active then Except.ok (false, st)
  else
    match st.last_trigger_time with
    | none => Except.error "TypeError: unsupported operand"
    | some t =>
      if now - t > 180 then
        Except.ok (false,
          { st with circuit_breaker_active := false, loss_streak := 0 })
      else Except.ok (true, st)

/-- `RiskManager.register_trade_result(pnl)`: a negative pnl extends the
loss streak and the drawdown history and trips the breaker at a streak of
3 or more; a non-negative pnl resets the streak. -/
def register_trade_result (now pnl : ℚ) (st : RiskState) : RiskState :=
  if pnl < 0 then
    let st1 := { st with
      loss_streak := st.loss_streak + 1,
      drawdown_history := st.drawdown_history ++ [pnl] }
    if st1.loss_streak ≥ 3 then trigger_circuit_breaker now st1 else st1
  else { st with loss_streak := 0 }

/-- `RiskManager._check_drawdown()`: drawdown is `(peak-equity)/peak` when
`peak > 0`, else 0; exceeding the daily limit trips the breaker. -/
def check_drawdown (env : Env) (cfg : Config) (st : RiskState) :
    Bool × RiskState :=
  let drawdown :=
    if env.equity_peak > 0 then (env.equity_peak - env.equity) / env.equity_peak
    else 0
  if drawdown > cfg.daily_drawdown_limit then
    (false, trigger_circuit_breaker env.now st)
  else (true, st)

/-- `RiskManager._check_margin_health()`: a margin ratio below the
configured threshold trips the breaker. -/
def check_margin_health (env : Env) (cfg : Config) (st : RiskState) :
    Bool × RiskState :=
  if env.margin_level < cfg.margin_health_threshold then
    (false, trigger_circuit_breaker env.now st)
  else (true, st)

/-- `RiskManager.pre_trade_check(ev)`: rejects on an active breaker, on
`ev < -0.05`, on a failing drawdown check or on a failing margin-health
check (the latter two trip the breaker as a side effect). -/
def pre_trade_check (env : Env) (cfg : Config) (st : RiskState) (ev : ℚ) :
    Bool × RiskState :=
  if st.circuit_breaker_active then (false, st)
  else if ev < -0.05 then (false, st)
  else
    let (ok1, st1) := check_drawdown env cfg st
    if ¬ ok1 then (false, st1)
    else
      let (ok2, st2) := check_margin_health env cfg st1
      if ¬ ok2 then (false, st2) else (true, st2)

/-- `RiskManager._risk_heat()`: 0 for an empty drawdown history, else the
absolute average of the last 10 entries scaled by 1/0.05 and capped at 1. -/
def risk_heat (st : RiskState) : Except String ℚ :=
  if st.drawdown_history = [] then Except.ok 0
  else do
    let window := lastN 10 st.drawdown_history
    let q ← pydiv window.sum (window.length : ℚ)
    let avg_loss := |q|
    Except.ok (min (avg_loss / 0.05) 1)

/-- `RiskManager.dynamic_stop_loss(current_price, entry_price, volatility)`:
a volatility-scaled stop adjusted by the risk-heat index (the current price
is not used by the source). -/
def dynamic_stop_loss (st : RiskState) (_current_price entry_price volatility : ℚ) :
    Except String ℚ := do
  let heat ← risk_heat st
  let base_stop := entry_price - 2 * volatility
  Except.ok (base_stop * (1 + heat))

/-! ## EV Engine (src/ev_engine/core.py) -/

/-- One entry of `EVEngine.history` as appended by `_record_history`:
the win flag records whether the computed EV was positive, not any realized
outcome. -/
structure TradeHistoryEntry where
  symbol : String
  p : ℚ
  G : ℚ
  L : ℚ
  ev : ℚ
  tier : String
  win : Bool
deriving DecidableEq

/-- The dict returned by `EVEngine.calculate_ev_for_symbol` (core.py lines
63-73).  Its keys are exactly `symbol`, `p_win`, `G`, `L`, `EV`, `tier`,
`kelly_position`, `recommended_leverage` and `components`. -/
structure EVResult where
  symbol : String
  p_win : ℚ
  G : ℚ
  L : ℚ
  EV : ℚ
  tier : String
  kelly_position : ℚ
  recommended_leverage : Nat
  components : List (String × ℚ)
deriving DecidableEq

/-- Python subscript `ev_result[k]` in a numeric position.  The float-valued
keys of the dict return their value (`recommended_leverage`, an int, is
included since Python ints compare with floats); `symbol`, `tier` and
`components` hold non-numeric values and are only ever read as plain fields
by the source; any other key raises `KeyError`. -/
def EVResult.getNum (r : EVResult) (k : String) : Except String ℚ :=
  if k = "p_win" then Except.ok r.p_win
  else if k = "G" then Except.ok r.G
  else if k = "L" then Except.ok r.L
  else if k = "EV" then Except.ok r.EV
  else if k = "kelly_position" then Except.ok r.kelly_position
  else if k = "recommended_leverage" then Except.ok (r.recommended_leverage : ℚ)
  else Except.error ("KeyError: " ++ k)

/-- `EVEngine._estimate_probability(symbol, score, state)`: Beta-posterior
mean over the per-symbol win/loss counts of the bounded history, corrected
by a volatility penalty `exp(-volatility)` and a trend boost, clamped to
`[0.01, 0.99]`. -/
def estimate_probability (npexp : ℚ → ℚ) (cfg : Config)
    (hist : List TradeHistoryEntry) (symbol : String) (score : ℚ)
    (state : Feat) : Except String ℚ := do
  let past_wins : Nat :=
    (hist.filter (fun t => decide (t.symbol = symbol) && t.win)).length
  let past_losses : Nat :=
    (hist.filter (fun t => decide (t.symbol = symbol) && !t.win)).length
  let alpha_post := cfg.beta_alpha + past_wins + score * 10
  let beta_post := cfg.beta_beta + past_losses + (1 - score) * 10
  let p ← pydiv alpha_post (alpha_post + beta_post)
  let vol_penalty := npexp (-(fget state "volatility" 0.5))
  let trend_boost := 1 + 0.15 * fget state "trend_consistency" 0.0
  Except.ok (npclip (p * (vol_penalty * trend_boost)) 0.01 0.99)

/-- `EVEngine._estimate_gain(state)`: `clip(1 + 3·ATR·momentum·liquidity,
0.5, 5.0)`. -/
def estimate_gain (state : Feat) : ℚ :=
  let atr := fget state "ATR" 0.01
  let momentum := fget state "momentum" 1.0
  let liquidity := fget state "liquidity_score" 1.0
  npclip (1 + 3 * atr * momentum * liquidity) 0.5 5.0

/-- `EVEngine._estimate_loss(state)`: `clip(1 + 2·vol·(1/depth) + 10·slip,
0.5, 5.0)`.  The division `1 / depth` raises `ZeroDivisionError` when the
present value of `depth_score` is 0 (the default 1.0 applies only when the
key is absent). -/
def estimate_loss (state : Feat) : Except String ℚ := do
  let vol := fget state "volatility" 1.0
  let depth := fget state "depth_score" 1.0
  let slippage := fget state "slippage" 0.01
  let inv_depth ← pydiv 1 depth
  Except.ok (npclip (1 + 2 * vol * inv_depth + slippage * 10) 0.5 5.0)

/-- `EVEngine._estimate_fees(state)`: base fee plus funding-rate cost plus
slippage penalty. -/
def estimate_fees (state : Feat) : ℚ :=
  let base_fee := (0.0016 : ℚ)
  let funding := |fget state "funding_rate" 0.0| * 10
  let slippage_cost := fget state "slippage" 0.01 * 2
  base_fee + funding + slippage_cost

/-- `EVEngine._classify_ev(ev)`: the six-band tier cascade. -/
def classify_ev (ev : ℚ) : String :=
  if ev ≥ 0.35 then "T1_explosive"
  else if ev ≥ 0.20 then "T2_strong"
  else if ev ≥ 0.10 then "T3_moderate"
  else if ev ≥ 0.03 then "T4_neutral"
  else if ev ≥ -0.02 then "T5_scalping"
  else "T6_defensive"

/-- `EVEngine._recommend_leverage(ev)`: a tier-dependent draw from
`np.random.randint(lo, hi)`, the randomness injected through `randint`. -/
def recommend_leverage (randint : Nat → Nat → Nat) (ev : ℚ) : Nat :=
  if ev ≥ 0.35 then randint 90 120
  else if ev ≥ 0.20 then randint 50 85
  else if ev ≥ 0.10 then randint 20 50
  else if ev ≥ 0.03 then randint 10 30
  else if ev ≥ -0.02 then randint 5 15
  else randint 1 5

/-- `EVEngine._dynamic_kelly(p, G, L)`: the odds ratio `b` is `G/L` guarded
by `L != 0`; the Kelly fraction `(p·(b+1)-1)/b` is clamped to `[0, 0.25]`.
The variable `edge` is computed but unused by the source. -/
def dynamic_kelly (p G L : ℚ) : Except String ℚ := do
  let _edge := p * (G + 1) - (1 - p) * L
  let b := if L ≠ 0 then G / L else 1
  let kelly_fraction ← pydiv (p * (b + 1) - 1) b
  Except.ok (npclip kelly_fraction 0.0 0.25)

/-- `EVEngine._record_history(symbol, p, G, L, ev, tier)`: append one entry
with `win = ev > 0` and pop the oldest entry once the length exceeds the
configured window. -/
def record_history (symbol : String) (p G L ev : ℚ) (tier : String)
    (hist : List TradeHistoryEntry) (window : Nat) : List TradeHistoryEntry :=
  let hist' := hist ++
    [{ symbol := symbol, p := p, G := G, L := L, ev := ev, tier := tier,
       win := decide (ev > 0) }]
  if hist'.length > window then hist'.tail else hist'

/-- `EVEngine.calculate_ev_for_symbol(symbol, market_state)`: returns `{}`
(here `none`) and touches nothing when the signal engine has no signal for
the symbol; otherwise computes p, G, L, EV, tier, leverage and Kelly size,
appends one history entry, and returns the result dict together with the
updated history. -/
def calculate_ev_for_symbol (env : Env) (cfg : Config)
    (hist : List TradeHistoryEntry) (symbol : String) (market_state : Feat) :
    Except String (Option EVResult × List TradeHistoryEntry) :=
  match env.signals symbol with
  | none => Except.ok (none, hist)
  | some signal_data => do
    let score := signal_data.signal_score
    let p ← estimate_probability env.npexp cfg hist symbol score market_state
    let G := estimate_gain market_state
    let L ← estimate_loss market_state
    let ev := p * G - (1 - p) * L - estimate_fees market_state
    let tier := classify_ev ev
    let optimal_leverage := recommend_leverage env.randint ev
    let position_size ← dynamic_kelly p G L
    let hist' := record_history symbol p G L ev tier hist cfg.trade_window
    Except.ok (some { symbol := symbol, p_win := p, G := G, L := L,
                      EV := ev, tier := tier, kelly_position := position_size,
                      recommended_leverage := optimal_leverage,
                      components := signal_data.components }, hist')

/-! ## Execution Engine (src/execution_system/executor.py) -/

/-- One open position (`self.active_positions[symbol]`). -/
structure Position where
  entry_time : ℚ
  entry_price : ℚ
  leverage : Nat
  notional : ℚ
  ev_entry : ℚ
  direction : String
  is_open : Bool
deriving DecidableEq

/-- One simulated order (`_mock_order`). -/
structure Order where
  symbol : String
  side : String
  size : ℚ
  leverage : Nat
  timestamp : ℚ
deriving DecidableEq

/-- The mutable state of `ExecutionEngine` plus the two collaborator states
it drives: the EV engine's bounded history and the risk manager's state. -/
structure ExecState where
  active_positions : List (String × Position)
  cooldowns : List (String × ℚ)
  trade_log : List Order
  ev_history : List TradeHistoryEntry
  risk : RiskState
deriving DecidableEq

/-- `ExecutionEngine._mock_order(symbol, side, size, leverage)`. -/
def mock_order (env : Env) (symbol side : String) (size : ℚ) (leverage : Nat) :
    Order :=
  { symbol := symbol, side := side, size := size, leverage := leverage,
    timestamp := env.now }

/-- `ExecutionEngine._enter_position(symbol, ev_result, leverage,
position_size)`: sizes the order from the available balance, direction BUY
iff `p_win > 0.5`, records the position (entry price from the components
dict with default 0) and appends the order to the trade log. -/
def enter_position (env : Env) (st : ExecState) (symbol : String)
    (ev_result : EVResult) (leverage : Nat) (position_size : ℚ) : ExecState :=
  let order_notional := env.balance * position_size * leverage
  let order := mock_order env symbol
    (if ev_result.p_win > 0.5 then "BUY" else "SELL") order_notional leverage
  { st with
    active_positions := aset st.active_positions symbol
      { entry_time := env.now,
        entry_price := fget ev_result.components "price" 0,
        leverage := leverage, notional := order_notional,
        ev_entry := ev_result.EV, direction := order.side, is_open := true },
    trade_log := st.trade_log ++ [order] }

/-- `ExecutionEngine._exit_position(symbol, reason)`: `pop` the position;
if none was present, return without touching the cooldowns, otherwise set a
cooldown of 5 minutes from now. -/
def exit_position (st : ExecState) (symbol : String) (now : ℚ)
    (_reason : String) : ExecState :=
  match alookup st.active_positions symbol with
  | none => st
  | some _ =>
    { st with active_positions := aremove st.active_positions symbol,
              cooldowns := aset st.cooldowns symbol (now + 5) }

/-- `ExecutionEngine._check_risk(symbol, ev)`: blocked when the circuit
breaker reports active (this query may lazily deactivate it, a mutation
kept in the returned risk state) or when `ev < -0.05`. -/
def check_risk (env : Env) (risk : RiskState) (ev : ℚ) :
    Except String (Bool × RiskState) := do
  let (tripped, risk') ← check_circuit_breaker env.now risk
  if tripped then Except.ok (false, risk')
  else if ev < -0.05 then Except.ok (false, risk')
  else Except.ok (true, risk')

/-- `ExecutionEngine._in_cooldown(symbol)`: true iff the symbol has a
cooldown entry lying strictly in the future. -/
def in_cooldown (cooldowns : List (String × ℚ)) (symbol : String) (now : ℚ) :
    Bool :=
  match alookup cooldowns symbol with
  | some t => decide (now < t)
  | none => false

/-- `ExecutionEngine._maybe_exit(symbol, ev_result)`: the four exit
triggers, evaluated in order on the position as captured at entry to the
function; after a first exit the later `_exit_position` calls find no
position and do nothing.  Reading `active_positions[symbol]` raises
`KeyError` if the position is absent. -/
def maybe_exit (env : Env) (st : ExecState) (symbol : String)
    (ev_result : EVResult) : Except String ExecState :=
  match alookup st.active_positions symbol with
  | none => Except.error "KeyError: active_positions"
  | some pos =>
    let current_ev := ev_result.EV
    let time_held := env.now - pos.entry_time
    let st1 := if current_ev < 0 ∨ ev_result.p_win < 0.5 then
        exit_position st symbol env.now "Signal invalid" else st
    let st2 := if time_held > 24 * 60 then
        exit_position st1 symbol env.now "Time exceeded" else st1
    let st3 := if time_held > 15 ∧ ¬ env.profitable symbol then
        exit_position st2 symbol env.now "No profit after 15m" else st2
    let st4 := if current_ev < 0.5 * pos.ev_entry then
        exit_position st3 symbol env.now "EV decayed" else st3
    Except.ok st4

/-- `ExecutionEngine._maybe_rotate(symbol, ev_result)` (executor.py lines
122-135), translated line by line: read the position (`KeyError` when it
was already popped by `_maybe_exit`), then compare `ev_result["EV"]` with
`ev_result["ev_entry"]` — the latter subscript is on the dict returned by
`calculate_ev_for_symbol`, which has no such key — then against 80% of the
maximum `ev_entry` over all open positions, and on success close with
reason "Rotated for higher EV" and immediately re-enter with the new
leverage and Kelly size. -/
def maybe_rotate (env : Env) (st : ExecState) (symbol : String)
    (ev_result : EVResult) : Except String ExecState :=
  match alookup st.active_positions symbol with
  | none => Except.error "KeyError: active_positions"
  | some _pos => do
    let current_ev ← ev_result.getNum "EV"
    let entry_ref ← ev_result.getNum "ev_entry"
    if current_ev < entry_ref then Except.ok st
    else
      match (st.active_positions.map (fun p => p.2.ev_entry)).max? with
      | none => Except.error "ValueError: max of empty sequence"
      | some top =>
        if current_ev < 0.8 * top then Except.ok st
        else
          let st1 := exit_position st symbol env.now "Rotated for higher EV"
          Except.ok (enter_position env st1 symbol ev_result
            ev_result.recommended_leverage ev_result.kelly_position)

/-- The body of the `execute_cycle` loop for one `(symbol, state)` pair of
the market snapshot: evaluate EV (recording history), skip on an empty
result, a failed risk check or a cooldown; with an open position run
`_maybe_exit` then `_maybe_rotate`; flat, enter when the EV strictly
exceeds the configured base threshold. -/
def cycle_step (env : Env) (cfg : Config) (st : ExecState)
    (item : String × Feat) : Except String ExecState := do
  let symbol := item.1
  let (res, hist') ← calculate_ev_for_symbol env cfg st.ev_history symbol item.2
  let sth := { st with ev_history := hist' }
  match res with
  | none => Except.ok sth
  | some ev_result => do
    let ev := ev_result.EV
    let (allowed, risk') ← check_risk env sth.risk ev
    let str := { sth with risk := risk' }
    if ¬ allowed then Except.ok str
    else if in_cooldown str.cooldowns symbol env.now then Except.ok str
    else if (alookup str.active_positions symbol).isSome then do
      let ste ← maybe_exit env str symbol ev_result
      maybe_rotate env ste symbol ev_result
    else if ev > cfg.base_threshold then
      Except.ok (enter_position env str symbol ev_result
        ev_result.recommended_leverage ev_result.kelly_position)
    else Except.ok str

/-- `ExecutionEngine.execute_cycle(market_snapshot)`: run `cycle_step` over
the snapshot in order; an uncaught exception aborts the cycle. -/
def execute_cycle (env : Env) (cfg : Config) (st : ExecState) :
    List (String × Feat) → Except String ExecState
  | [] => Except.ok st
  | item :: rest => do
    let st' ← cycle_step env cfg st item
    execute_cycle env cfg st' rest

/-! ## Derived definitions used by the statements -/

/-- The entry `_record_history` builds from a returned EV result: the same
p, G, L, EV and tier, and the win flag `EV > 0` evaluated at computation
time. -/
def histEntry (symbol : String) (r : EVResult) : TradeHistoryEntry :=
  { symbol := symbol, p := r.p_win, G := r.G, L := r.L, ev := r.EV,
    tier := r.tier, win := decide (r.EV > 0) }

/-- The rank of a tier name, T6_defensive = 0 up to T1_explosive = 5, used
to state that classification is monotone in EV. -/
def tierRank (tier : String) : Nat :=
  if tier = "T6_defensive" then 0
  else if tier = "T5_scalping" then 1
  else if tier = "T4_neutral" then 2
  else if tier = "T3_moderate" then 3
  else if tier = "T2_strong" then 4
  else 5

/-- Three consecutive `register_trade_result` calls. -/
def after_three_losses (s : RiskState) (t1 t2 t3 p1 p2 p3 : ℚ) : RiskState :=
  register_trade_result t3 p3
    (register_trade_result t2 p2 (register_trade_result t1 p1 s))

/-! ## Concrete scenario used by witnesses and counterexamples -/

/-- The initial risk state of `RiskManager.__init__`. -/
def rs0 : RiskState :=
  { drawdown_history := [], loss_streak := 0, circuit_breaker_active := false,
    last_trigger_time := none }

/-- Three straight losing registrations at minutes 0, 1 and 2. -/
def rs3 : RiskState := after_three_losses rs0 0 1 2 (-1) (-1) (-1)

/-- A concrete environment: time 1000 min, balance 1000, flat equity at its
peak 100, margin ratio 0 (below any healthy threshold), `np.exp` frozen to
the constant 1, `randint` returning its lower bound, a profitable position
oracle, and one signal with full score for BTCUSDT. -/
def env0 : Env :=
  { now := 1000, balance := 1000, equity := 100, equity_peak := 100,
    margin_level := 0, npexp := fun _ => 1, randint := fun a _ => a,
    profitable := fun _ => true,
    signals := fun s => if s = "BTCUSDT" then
      some { signal_score := 1, ev_estimate := 0, tier := "T3_moderate",
             components := [] } else none }

/-- A concrete configuration: Beta(1,1) prior, base threshold 0.05, window
100, drawdown limit 20%, margin health threshold 0.5. -/
def cfg0 : Config :=
  { beta_alpha := 1, beta_beta := 1, base_threshold := 0.05,
    trade_window := 100, daily_drawdown_limit := 0.2,
    margin_health_threshold := 0.5 }

/-- A concrete market state: volatility 0.1, ATR 0.1, unit momentum,
liquidity and depth, zero slippage and funding, zero trend consistency. -/
def ms0 : Feat :=
  [("volatility", 1/10), ("ATR", 1/10), ("momentum", 1),
   ("liquidity_score", 1), ("depth_score", 1), ("slippage", 0),
   ("funding_rate", 0), ("trend_consistency", 0)]

/-- The execution state at startup: no positions, no cooldowns, empty logs
and histories, breaker armed. -/
def st0 : ExecState :=
  { active_positions := [], cooldowns := [], trade_log := [],
    ev_history := [], risk := rs0 }

/-- One open BTCUSDT position entered at minute 995 with entry EV 1. -/
def pos1 : Position :=
  { entry_time := 995, entry_price := 0, leverage := 10, notional := 500,
    ev_entry := 1, direction := "BUY", is_open := true }

/-- The execution state with exactly one open position (BTCUSDT). -/
def st1 : ExecState :=
  { active_positions := [("BTCUSDT", pos1)], cooldowns := [], trade_log := [],
    ev_history := [], risk := rs0 }

/-- The EV result `calculate_ev_for_symbol` computes for BTCUSDT under
`env0`, `cfg0`, empty history and `ms0`: p = 11/12, G = 1.3, L = 1.2,
EV = 16351/15000 (about 1.09), tier T1, Kelly clamped to 0.25, leverage 90. -/
def evr1 : EVResult :=
  { symbol := "BTCUSDT", p_win := 11/12, G := 13/10, L := 6/5,
    EV := 16351/15000, tier := "T1_explosive", kelly_position := 1/4,
    recommended_leverage := 90, components := [] }

/-- The history entry recorded by that same evaluation. -/
def entry1 : TradeHistoryEntry :=
  { symbol := "BTCUSDT", p := 11/12, G := 13/10, L := 6/5,
    ev := 16351/15000, tier := "T1_explosive", win := true }

/-- The position the entry path opens from `st0` under `env0`:
notional = 1000 · 0.25 · 90 = 22500, direction BUY since p > 0.5. -/
def posEntry : Position :=
  { entry_time := 1000, entry_price := 0, leverage := 90, notional := 22500,
    ev_entry := 16351/15000, direction := "BUY", is_open := true }

/-- The order logged on that entry. -/
def order1 : Order :=
  { symbol := "BTCUSDT", side := "BUY", size := 22500, leverage := 90,
    timestamp := 1000 }

/-- The state after `cycle_step` opens BTCUSDT from `st0`. -/
def st_entered : ExecState :=
  { active_positions := [("BTCUSDT", posEntry)], cooldowns := [],
    trade_log := [order1], ev_history := [entry1], risk := rs0 }

/-- The state after `_exit_position` closes the position of `st1` at minute
1000: flat, with a cooldown until minute 1005. -/
def st_exited : ExecState :=
  { active_positions := [], cooldowns := [("BTCUSDT", 1005)], trade_log := [],
    ev_history := [], risk := rs0 }

/-- The state a `cycle_step` at minute 1004 leaves from `st_exited`: only
the EV history has grown; the cooldown blocked re-entry. -/
def st_cooled : ExecState :=
  { active_positions := [], cooldowns := [("BTCUSDT", 1005)], trade_log := [],
    ev_history := [entry1], risk := rs0 }

/-- All-ones fusion weights. -/
def w1 : Weights := ⟨1, 1, 1, 1, 1, 1, 1, 1, 1⟩

/-- An arbitrary concrete signal record. -/
def srec1 : SignalRecord :=
  { t := 0, symbol := "BTCUSDT", score := 0, ev := 0, tier := "T5_scalping" }

/-! ## Helper lemmas -/

lemma alookup_nil {α : Type} (k : String) :
    alookup ([] : List (String × α)) k = none := rfl

lemma alookup_cons {α : Type} (k k' : String) (v : α) (t : List (String × α)) :
    alookup ((k', v) :: t) k = if k = k' then some v else alookup t k := rfl

lemma alookup_append_left_none {α : Type} (l m : List (String × α)) (k : String)
    (h : alookup l k = none) : alookup (l ++ m) k = alookup m k := by
  induction l with
  | nil => rfl
  | cons a t ih =>
    obtain ⟨k', v⟩ := a
    rw [List.cons_append, alookup_cons]
    rw [alookup_cons] at h
    by_cases hk : k = k'
    · rw [if_pos hk] at h
      exact absurd h (by simp)
    · rw [if_neg hk] at h ⊢
      exact ih h

lemma alookup_map_update {α : Type} (l : List (String × α)) (k : String) (v : α) :
    alookup (l.map (fun p => if p.1 = k then (k, v) else p)) k =
      if (alookup l k).isSome then some v else none := by
  induction l with
  | nil => rfl
  | cons a t ih =>
    obtain ⟨k', v'⟩ := a
    rw [List.map_cons]
    by_cases hk : k' = k
    · subst hk
      simp [alookup_cons]
    · have hk2 : ¬ k = k' := fun h => hk h.symm
      simp only [hk, if_false, alookup_cons, hk2, ite_false]
      exact ih

lemma alookup_aset_self {α : Type} (l : List (String × α)) (k : String) (v : α) :
    alookup (aset l k v) k = some v := by
  unfold aset
  by_cases h : (alookup l k).isSome
  · rw [if_pos h, alookup_map_update, if_pos h]
  · rw [if_neg h,
      alookup_append_left_none _ _ _ (Option.not_isSome_iff_eq_none.mp h)]
    simp [alookup_cons]

lemma alookup_aremove_self {α : Type} (l : List (String × α)) (k : String) :
    alookup (aremove l k) k = none := by
  induction l with
  | nil => rfl
  | cons a t ih =>
    obtain ⟨k', v⟩ := a
    by_cases hk : k' = k
    · simpa [aremove, List.filter_cons, hk] using ih
    · have hk2 : ¬ k = k' := fun h => hk h.symm
      simpa [aremove, List.filter_cons, hk, alookup_cons, hk2] using ih

lemma npclip_bounds (x lo hi : ℚ) (h : lo ≤ hi) :
    lo ≤ npclip x lo hi ∧ npclip x lo hi ≤ hi :=
  ⟨le_min (le_max_right x lo) h, min_le_right _ _⟩

lemma pydiv_bind_ok_inv {a b : ℚ} {f : ℚ → Except String ℚ} {r : ℚ}
    (h : (pydiv a b >>= f) = Except.ok r) :
    b ≠ 0 ∧ f (a / b) = Except.ok r := by
  unfold pydiv at h
  by_cases hb : b = 0
  · rw [if_pos hb] at h
    simp [Except.bind, bind] at h
  · rw [if_neg hb] at h
    refine ⟨hb, ?_⟩
    simpa [Except.bind, bind] using h

lemma estimate_probability_ok_bounds (e : ℚ → ℚ) (cfg : Config)
    (hist : List TradeHistoryEntry) (sym : String) (score : ℚ) (ms : Feat)
    (p : ℚ) (h : estimate_probability e cfg hist sym score ms = Except.ok p) :
    0.01 ≤ p ∧ p ≤ 0.99 := by
  simp only [estimate_probability] at h
  obtain ⟨-, h2⟩ := pydiv_bind_ok_inv h
  simp only [Except.ok.injEq] at h2
  rw [← h2]
  exact npclip_bounds _ 0.01 0.99 (by norm_num)

lemma estimate_loss_ok_bounds (ms : Feat) (L : ℚ)
    (h : estimate_loss ms = Except.ok L) : 0.5 ≤ L ∧ L ≤ 5.0 := by
  simp only [estimate_loss] at h
  obtain ⟨-, h2⟩ := pydiv_bind_ok_inv h
  simp only [Except.ok.injEq] at h2
  rw [← h2]
  exact npclip_bounds _ 0.5 5.0 (by norm_num)

lemma estimate_gain_bounds (ms : Feat) :
    0.5 ≤ estimate_gain ms ∧ estimate_gain ms ≤ 5.0 := by
  simp only [estimate_gain]
  exact npclip_bounds _ 0.5 5.0 (by norm_num)

lemma dynamic_kelly_ok_bounds (p G L k : ℚ)
    (h : dynamic_kelly p G L = Except.ok k) : 0.0 ≤ k ∧ k ≤ 0.25 := by
  simp only [dynamic_kelly] at h
  obtain ⟨-, h2⟩ := pydiv_bind_ok_inv h
  simp only [Except.ok.injEq] at h2
  rw [← h2]
  exact npclip_bounds _ 0.0 0.25 (by norm_num)

lemma calculate_ok_inversion (env : Env) (cfg : Config)
    (hist : List TradeHistoryEntry) (sym : String) (ms : Feat) (r : EVResult)
    (hist' : List TradeHistoryEntry)
    (h : calculate_ev_for_symbol env cfg hist sym ms = Except.ok (some r, hist')) :
    ∃ sd p L k, env.signals sym = some sd
      ∧ estimate_probability env.npexp cfg hist sym sd.signal_score ms = Except.ok p
      ∧ estimate_loss ms = Except.ok L
      ∧ dynamic_kelly p (estimate_gain ms) L = Except.ok k
      ∧ r = { symbol := sym, p_win := p, G := estimate_gain ms, L := L,
              EV := p * estimate_gain ms - (1 - p) * L - estimate_fees ms,
              tier := classify_ev
                (p * estimate_gain ms - (1 - p) * L - estimate_fees ms),
              kelly_position := k,
              recommended_leverage := recommend_leverage env.randint
                (p * estimate_gain ms - (1 - p) * L - estimate_fees ms),
              components := sd.components }
      ∧ hist' = record_history sym p (estimate_gain ms) L
          (p * estimate_gain ms - (1 - p) * L - estimate_fees ms)
          (classify_ev (p * estimate_gain ms - (1 - p) * L - estimate_fees ms))
          hist cfg.trade_window := by
  unfold calculate_ev_for_symbol at h
  cases hs : env.signals sym with
  | none =>
    rw [hs] at h
    simp at h
  | some sd =>
    rw [hs] at h
    cases hp : estimate_probability env.npexp cfg hist sym sd.signal_score ms with
    | error e =>
      simp only [hp, Except.bind, bind] at h
      exact absurd h (by simp)
    | ok p =>
      simp only [hp, Except.bind, bind] at h
      cases hL : estimate_loss ms with
      | error e =>
        simp only [hL] at h
        exact absurd h (by simp)
      | ok L =>
        simp only [hL] at h
        cases hk : dynamic_kelly p (estimate_gain ms) L with
        | error e =>
          simp only [hk] at h
          exact absurd h (by simp)
        | ok k =>
          simp only [hk, Except.ok.injEq, Prod.mk.injEq, Option.some.injEq] at h
          exact ⟨sd, p, L, k, rfl, hp, rfl, hk, h.1.symm, h.2.symm⟩

/-- C10: for every market-state input and every history state, a successful
EV evaluation returns a win probability in [0.01, 0.99], a gain and a loss
in [0.5, 5.0], and a Kelly fraction in [0, 0.25]. -/
theorem C10_ev_outputs_clamped (env : Env) (cfg : Config)
    (hist : List TradeHistoryEntry) (sym : String) (ms : Feat) (r : EVResult)
    (hist' : List TradeHistoryEntry)
    (h : calculate_ev_for_symbol env cfg hist sym ms = Except.ok (some r, hist')) :
    (0.01 ≤ r.p_win ∧ r.p_win ≤ 0.99) ∧ (0.5 ≤ r.G ∧ r.G ≤ 5)
      ∧ (0.5 ≤ r.L ∧ r.L ≤ 5) ∧ (0 ≤ r.kelly_position ∧ r.kelly_position ≤ 0.25) := by
  obtain ⟨sd, p, L, k, hs, hp, hL, hk, hr, -⟩ := calculate_ok_inversion _ _ _ _ _ _ _ h
  subst hr
  have h1 := estimate_probability_ok_bounds _ _ _ _ _ _ _ hp
  have h2 := estimate_gain_bounds ms
  have h3 := estimate_loss_ok_bounds _ _ hL
  have h4 := dynamic_kelly_ok_bounds _ _ _ _ hk
  refine ⟨⟨h1.1, h1.2⟩, ⟨h2.1, ?_⟩, ⟨h3.1, ?_⟩, ⟨?_, h4.2⟩⟩
  · exact le_trans h2.2 (by norm_num)
  · exact le_trans h3.2 (by norm_num)
  · exact le_trans (by norm_num) h4.1

lemma classify_ev_bands (ev : ℚ) :
    (classify_ev ev = "T1_explosive" ↔ 0.35 ≤ ev)
    ∧ (classify_ev ev = "T2_strong" ↔ 0.20 ≤ ev ∧ ev < 0.35)
    ∧ (classify_ev ev = "T3_moderate" ↔ 0.10 ≤ ev ∧ ev < 0.20)
    ∧ (classify_ev ev = "T4_neutral" ↔ 0.03 ≤ ev ∧ ev < 0.10)
    ∧ (classify_ev ev = "T5_scalping" ↔ -0.02 ≤ ev ∧ ev < 0.03)
    ∧ (classify_ev ev = "T6_defensive" ↔ ev < -0.02) := by
  unfold classify_ev
  split_ifs with h1 h2 h3 h4 h5 <;>
    refine ⟨?_, ?_, ?_, ?_, ?_, ?_⟩ <;> simp_all <;>
    first
      | linarith
      | (intro hh; linarith)

lemma classify_ev_rank_mono (x y : ℚ) (hxy : x ≤ y) :
    tierRank (classify_ev x) ≤ tierRank (classify_ev y) := by
  unfold classify_ev
  split_ifs <;> simp [tierRank] <;> exfalso <;> linarith

lemma sig_tier_matches (e : ℚ → ℚ) (act score : ℚ) (feat : Feat) :
    (sig_ev_classify e act score feat).map Prod.snd
      = (sig_ev_classify e act score feat).map (fun q => classify_ev q.1) := by
  unfold sig_ev_classify
  cases hd : pydiv 1 (1 + e (-6 * (score - act))) with
  | error err => simp [hd, Except.bind, bind, Except.map]
  | ok p => simp [hd, Except.bind, bind, Except.map, pure, Except.pure, classify_ev]

/-- C9: tier assignment is a pure monotone step function of EV with the
six bands inclusive at the lower edge, and the EV engine's classifier and
the signal engine's coarse classifier agree on every EV value the latter
produces. -/
theorem C9_tier_step_function :
    (∀ ev : ℚ,
      (classify_ev ev = "T1_explosive" ↔ 0.35 ≤ ev)
      ∧ (classify_ev ev = "T2_strong" ↔ 0.20 ≤ ev ∧ ev < 0.35)
      ∧ (classify_ev ev = "T3_moderate" ↔ 0.10 ≤ ev ∧ ev < 0.20)
      ∧ (classify_ev ev = "T4_neutral" ↔ 0.03 ≤ ev ∧ ev < 0.10)
      ∧ (classify_ev ev = "T5_scalping" ↔ -0.02 ≤ ev ∧ ev < 0.03)
      ∧ (classify_ev ev = "T6_defensive" ↔ ev < -0.02))
    ∧ (∀ a b : ℚ, tierRank (classify_ev (min a b)) ≤ tierRank (classify_ev (max a b)))
    ∧ (∀ (e : ℚ → ℚ) (act score : ℚ) (feat : Feat),
        (sig_ev_classify e act score feat).map Prod.snd
          = (sig_ev_classify e act score feat).map (fun q => classify_ev q.1)) :=
  ⟨classify_ev_bands,
   fun _ _ => classify_ev_rank_mono _ _ min_le_max,
   sig_tier_matches⟩

/-- C3 (amended): the rotation step never fires at all — on every state,
symbol and EV result, `_maybe_rotate` raises (`KeyError` on the missing
`ev_entry` key of the EV dict when the position is still open, `KeyError`
on the position lookup when `_maybe_exit` already closed it); it never
reaches the close-and-reopen, and with exactly one open position it raises
instead of being a no-op. -/
theorem C3_rotation_never_fires (env : Env) (st : ExecState) (sym : String)
    (evr : EVResult) :
    ∃ e, maybe_rotate env st sym evr = Except.error e := by
  unfold maybe_rotate
  cases h : alookup st.active_positions sym with
  | none => exact ⟨"KeyError: active_positions", rfl⟩
  | some pos =>
    refine ⟨"KeyError: ev_entry", ?_⟩
    simp [EVResult.getNum, Except.bind, bind]

/-- C3, counterexample to the claim as stated: in a state with exactly one
open position, the rotation step is not a no-op — it raises the `ev_entry`
KeyError. -/
theorem C3_one_position_not_noop :
    st1.active_positions.length = 1
      ∧ maybe_rotate env0 st1 "BTCUSDT" evr1 = Except.error "KeyError: ev_entry" := by
  constructor
  · rfl
  · simp [maybe_rotate, st1, pos1, env0, evr1, alookup, EVResult.getNum,
      Except.bind, bind]

/-- C1: a concrete cycle in which BTCUSDT has an open position, the new EV
(about 1.09) is at or above the position entry EV (1) and above 80% of the
maximum entry EV among open positions, so the claimed rotation should close
and reopen — but `execute_cycle` instead raises `KeyError`, because
`_maybe_rotate` reads `ev_result["ev_entry"]` from the newly computed EV
dict, which has no such key (the position dict, not read, holds it). -/
theorem C1_rotation_raises_keyerror :
    execute_cycle env0 cfg0 st1 [("BTCUSDT", ms0)]
      = Except.error "KeyError: ev_entry" := by
  simp [execute_cycle, cycle_step, calculate_ev_for_symbol, estimate_probability,
    estimate_gain, estimate_loss, estimate_fees, classify_ev, recommend_leverage,
    dynamic_kelly, record_history, check_risk, check_circuit_breaker, in_cooldown,
    maybe_exit, maybe_rotate, exit_position, enter_position, mock_order,
    EVResult.getNum, pydiv, npclip, fget, alookup, aset, aremove,
    env0, cfg0, st1, ms0, pos1, rs0, Except.bind, bind, pure, Except.pure]
  norm_num
  simp [alookup]

/-- C4: the loss estimator's depth divisor is NOT guarded — a present
`depth_score` of 0 raises `ZeroDivisionError` (the default 1.0 covers only
a missing key) — while the other three divisions of the claim are guarded:
Kelly's odds ratio falls back to 1 when L = 0, the drawdown ratio is 0 when
the equity peak is 0, and the risk heat of an empty drawdown history is 0. -/
theorem C4_depth_division_unguarded :
    estimate_loss [("depth_score", 0)] = Except.error "ZeroDivisionError"
    ∧ dynamic_kelly (1/2) 2 0 = Except.ok 0
    ∧ risk_heat rs0 = Except.ok 0
    ∧ check_drawdown { env0 with equity := 50, equity_peak := 0 } cfg0 rs0
        = (true, rs0) := by
  refine ⟨?_, ?_, ?_, ?_⟩
  · simp [estimate_loss, fget, alookup, pydiv, Except.bind, bind]
  · simp [dynamic_kelly, pydiv, npclip, Except.bind, bind, pure, Except.pure]
    norm_num
  · simp [risk_heat, rs0]
  · simp [check_drawdown, env0, cfg0]
    norm_num

/-- C7, counterexample to the claim as stated: with all-ones weights,
fusing an empty feature mapping does not yield an all-zero breakdown and a
zero score — the funding-flip transform maps the neutral default 0 to -0.2,
so its contribution is -0.2 and the total score is -0.2. -/
theorem C7_fusion_empty_not_all_zero :
    (fusion w1 []).2 = -(1/5)
      ∧ alookup (fusion w1 []).1 "funding_flip" = some (-(1/5)) := by
  constructor <;> simp [fusion, fget, alookup, w1] <;> norm_num

/-- C7 (amended): fusing never fails on a missing feature — every feature
falls back to the neutral default 0 — and every component except
funding_flip then contributes 0; funding_flip's transform sends the default
0 (like any non-positive funding bias) to -0.2, so an empty feature mapping
yields all-zero contributions except funding_flip = -0.2 times its weight,
which is also the total score. -/
theorem C7_fusion_missing_defaults (w : Weights) :
    fusion w [] =
      ([("breakout", 0), ("momentum", 0), ("whale_flow", 0),
        ("orderbook_imbalance", 0), ("funding_flip", -(0.2) * w.funding_w),
        ("macro_sentiment", 0), ("onchain_flow", 0), ("etf_flow", 0),
        ("social_sentiment", 0)], -(0.2) * w.funding_w) := by
  simp [fusion, fget, alookup]
  norm_num

/-- C8, counterexample to the claim as stated: a call to
`calculate_ev_for_symbol` for a symbol the signal engine has no signal for
returns `{}` early and appends nothing — the history stays empty, so not
every call appends exactly one entry. -/
theorem C8_no_signal_appends_nothing :
    calculate_ev_for_symbol { env0 with signals := fun _ => none } cfg0 []
      "BTCUSDT" ms0 = Except.ok (none, []) := by
  simp [calculate_ev_for_symbol]

/-- C8 (amended): every call to EV evaluation that returns a result appends
exactly one entry, at the tail, whose win flag is the sign test EV > 0 at
computation time; when the history would exceed the configured window the
oldest (head) entry alone is evicted; and each bounded history preserves
its capacity bound — the EV history its `trade_window`, the signal
engine's deque its 1000 — with the deque likewise dropping its head when
full. -/
theorem C8_history_fifo_bounded (env : Env) (cfg : Config)
    (hist : List TradeHistoryEntry) (sym : String) (ms : Feat) (r : EVResult)
    (hist' : List TradeHistoryEntry) (l : List SignalRecord) (e : SignalRecord)
    (h : calculate_ev_for_symbol env cfg hist sym ms = Except.ok (some r, hist')) :
    (hist.length + 1 ≤ cfg.trade_window → hist' = hist ++ [histEntry sym r])
    ∧ (hist.length + 1 > cfg.trade_window → hist' = (hist ++ [histEntry sym r]).tail)
    ∧ (hist.length ≤ cfg.trade_window → hist'.length ≤ cfg.trade_window)
    ∧ (l.length ≤ 1000 → (dequePush 1000 l e).length ≤ 1000)
    ∧ (l.length = 1000 → dequePush 1000 l e = (l ++ [e]).tail) := by
  obtain ⟨sd, p, L, k, hs, hp, hL, hk, hr, hh⟩ := calculate_ok_inversion _ _ _ _ _ _ _ h
  have hent : histEntry sym r =
      { symbol := sym, p := p, G := estimate_gain ms, L := L,
        ev := p * estimate_gain ms - (1 - p) * L - estimate_fees ms,
        tier := classify_ev (p * estimate_gain ms - (1 - p) * L - estimate_fees ms),
        win := decide (p * estimate_gain ms - (1 - p) * L - estimate_fees ms > 0) } := by
    subst hr
    simp [histEntry]
  rw [record_history] at hh
  refine ⟨?_, ?_, ?_, ?_, ?_⟩
  · intro hle
    rw [hh, hent]
    rw [if_neg (by simp; omega)]
  · intro hgt
    rw [hh, hent]
    rw [if_pos (by simp; omega)]
  · intro hle
    rw [hh]
    split <;>
      (simp only [List.length_tail, List.length_append, List.length_cons,
        List.length_nil] at *
       omega)
  · intro hle
    unfold dequePush
    by_cases hc : (l ++ [e]).length > 1000
    · rw [if_pos hc]
      simp at hc ⊢
      omega
    · rw [if_neg hc]
      simp at hc ⊢
      omega
  · intro hlen
    unfold dequePush
    rw [if_pos (by simp [hlen])]

lemma calc_concrete :
    calculate_ev_for_symbol env0 cfg0 [] "BTCUSDT" ms0
      = Except.ok (some evr1, [entry1]) := by
  simp [calculate_ev_for_symbol, estimate_probability, estimate_gain,
    estimate_loss, estimate_fees, classify_ev, recommend_leverage,
    dynamic_kelly, record_history, pydiv, npclip, fget, alookup,
    env0, cfg0, ms0, evr1, entry1, Except.bind, bind, pure, Except.pure]
  norm_num

/-- C10, witness: the concrete BTCUSDT evaluation under `env0` satisfies all
four clamps. -/
theorem C10_ev_outputs_clamped_witness :
    (0.01 ≤ evr1.p_win ∧ evr1.p_win ≤ 0.99) ∧ (0.5 ≤ evr1.G ∧ evr1.G ≤ 5)
      ∧ (0.5 ≤ evr1.L ∧ evr1.L ≤ 5)
      ∧ (0 ≤ evr1.kelly_position ∧ evr1.kelly_position ≤ 0.25) :=
  C10_ev_outputs_clamped env0 cfg0 [] "BTCUSDT" ms0 evr1 [entry1] calc_concrete

/-- C8, witness: the concrete BTCUSDT evaluation appends exactly its one
entry to the empty history, and one deque push from empty stays within the
1000 cap. -/
theorem C8_history_fifo_bounded_witness :
    [entry1] = [] ++ [histEntry "BTCUSDT" evr1]
    ∧ (dequePush 1000 [] srec1).length ≤ 1000 :=
  ⟨(C8_history_fifo_bounded env0 cfg0 [] "BTCUSDT" ms0 evr1 [entry1] [] srec1
      calc_concrete).1 (by simp [cfg0]),
   (C8_history_fifo_bounded env0 cfg0 [] "BTCUSDT" ms0 evr1 [entry1] [] srec1
      calc_concrete).2.2.2.1 (by simp)⟩

lemma register_neg_streak (now pnl : ℚ) (s : RiskState) (h : pnl < 0) :
    (register_trade_result now pnl s).loss_streak = s.loss_streak + 1 := by
  simp only [register_trade_result, trigger_circuit_breaker]
  rw [if_pos h]
  split <;> rfl

lemma register_neg_trip (now pnl : ℚ) (s : RiskState) (h : pnl < 0)
    (h3 : s.loss_streak + 1 ≥ 3) :
    (register_trade_result now pnl s).circuit_breaker_active = true
    ∧ (register_trade_result now pnl s).last_trigger_time = some now := by
  simp only [register_trade_result, trigger_circuit_breaker]
  rw [if_pos h]
  rw [if_pos (by simpa using h3)]
  exact ⟨rfl, rfl⟩

lemma check_cb_within (t t0 : ℚ) (s : RiskState)
    (hact : s.circuit_breaker_active = true)
    (htrig : s.last_trigger_time = some t0) (hle : t ≤ t0 + 180) :
    check_circuit_breaker t s = Except.ok (true, s) := by
  unfold check_circuit_breaker
  rw [htrig]
  simp [hact]
  linarith

lemma check_cb_after (t t0 : ℚ) (s : RiskState)
    (hact : s.circuit_breaker_active = true)
    (htrig : s.last_trigger_time = some t0) (hgt : t0 + 180 < t) :
    check_circuit_breaker t s = Except.ok (false,
      { s with circuit_breaker_active := false, loss_streak := 0 }) := by
  unfold check_circuit_breaker
  rw [htrig]
  simp [hact, show t - t0 > 180 by linarith]

/-- C5: after three consecutive losing `register_trade_result` calls the
breaker is active with trigger time that of the third call;
`check_circuit_breaker` answers true (leaving the state untouched) at every
query up to 180 minutes past the trigger, and the first query strictly
after deactivates it and clears the loss streak; a non-negative pnl always
resets the streak. -/
theorem C5_three_losses_trip_and_cooldown (s : RiskState) (t1 t2 t3 p1 p2 p3 : ℚ)
    (h1 : p1 < 0) (h2 : p2 < 0) (h3 : p3 < 0) :
    (after_three_losses s t1 t2 t3 p1 p2 p3).circuit_breaker_active = true
    ∧ (after_three_losses s t1 t2 t3 p1 p2 p3).last_trigger_time = some t3
    ∧ (∀ t : ℚ, t ≤ t3 + 180 →
        check_circuit_breaker t (after_three_losses s t1 t2 t3 p1 p2 p3)
          = Except.ok (true, after_three_losses s t1 t2 t3 p1 p2 p3))
    ∧ (∀ t : ℚ, t3 + 180 < t →
        check_circuit_breaker t (after_three_losses s t1 t2 t3 p1 p2 p3)
          = Except.ok (false, { after_three_losses s t1 t2 t3 p1 p2 p3 with
              circuit_breaker_active := false, loss_streak := 0 }))
    ∧ (∀ (s' : RiskState) (t p : ℚ), 0 ≤ p →
        (register_trade_result t p s').loss_streak = 0) := by
  have hs1 := register_neg_streak t1 p1 s h1
  have hs2 := register_neg_streak t2 p2 (register_trade_result t1 p1 s) h2
  have htrip := register_neg_trip t3 p3
    (register_trade_result t2 p2 (register_trade_result t1 p1 s)) h3
    (by rw [hs2, hs1]; omega)
  refine ⟨htrip.1, htrip.2, fun t ht => check_cb_within t t3 _ htrip.1 htrip.2 ht,
    fun t ht => check_cb_after t t3 _ htrip.1 htrip.2 ht,
    fun s' t p hp => ?_⟩
  unfold register_trade_result
  rw [if_neg (not_lt.mpr hp)]

/-- C5, witness: losses at minutes 0, 1, 2 trip the breaker at minute 2; a
query at minute 100 still reports it tripped, a query at minute 183
(strictly past 2 + 180) resets it and the streak, and a winning
registration resets the streak. -/
theorem C5_three_losses_trip_and_cooldown_witness :
    rs3.circuit_breaker_active = true
    ∧ rs3.last_trigger_time = some 2
    ∧ check_circuit_breaker 100 rs3 = Except.ok (true, rs3)
    ∧ check_circuit_breaker 183 rs3 = Except.ok (false,
        { rs3 with circuit_breaker_active := false, loss_streak := 0 })
    ∧ (register_trade_result 5 1 rs3).loss_streak = 0 := by
  have h := C5_three_losses_trip_and_cooldown rs0 0 1 2 (-1) (-1) (-1)
    (by norm_num) (by norm_num) (by norm_num)
  exact ⟨h.1, h.2.1, h.2.2.1 100 (by norm_num), h.2.2.2.1 183 (by norm_num),
    h.2.2.2.2 rs3 5 1 (by norm_num)⟩

lemma cycle_step_cooldown_keeps_positions (env : Env) (cfg : Config)
    (st : ExecState) (sym : String) (ms : Feat) (st2 : ExecState)
    (hcd : in_cooldown st.cooldowns sym env.now = true)
    (h : cycle_step env cfg st (sym, ms) = Except.ok st2) :
    st2.active_positions = st.active_positions := by
  unfold cycle_step at h
  cases hc : calculate_ev_for_symbol env cfg st.ev_history sym ms with
  | error e =>
    simp only [hc, Except.bind, bind] at h
    exact absurd h (by simp)
  | ok pr =>
    obtain ⟨res, hist'⟩ := pr
    simp only [hc, Except.bind, bind] at h
    cases res with
    | none =>
      simp only [Except.ok.injEq] at h
      rw [← h]
    | some evr =>
      cases hcr : check_risk env st.risk evr.EV with
      | error e =>
        simp only [hcr, Except.bind, bind] at h
        exact absurd h (by simp)
      | ok br =>
        obtain ⟨allowed, risk'⟩ := br
        simp only [hcr, Except.bind, bind] at h
        cases allowed with
        | false =>
          rw [if_pos (by simp)] at h
          simp only [Except.ok.injEq] at h
          rw [← h]
        | true =>
          rw [if_neg (by simp)] at h
          rw [if_pos hcd] at h
          simp only [Except.ok.injEq] at h
          rw [← h]

/-- C6: exiting an open position, for any reason, records a cooldown of
exactly 5 minutes from the exit time and removes the position; the cooldown
test then answers true exactly for instants strictly before its expiry, and
any cycle run while the cooldown holds leaves the symbol without a position
(no entry, whatever the EV); at or after the expiry instant the cooldown
test answers false, so the cooldown no longer blocks entry. -/
theorem C6_exit_cooldown_blocks_reentry (st : ExecState) (sym : String)
    (now : ℚ) (reason : String)
    (hopen : (alookup st.active_positions sym).isSome = true) :
    alookup (exit_position st sym now reason).cooldowns sym = some (now + 5)
    ∧ alookup (exit_position st sym now reason).active_positions sym = none
    ∧ (∀ t : ℚ, in_cooldown (exit_position st sym now reason).cooldowns sym t
        = decide (t < now + 5))
    ∧ (∀ (env2 : Env) (cfg : Config) (ms : Feat) (st2 : ExecState),
        env2.now < now + 5 →
        cycle_step env2 cfg (exit_position st sym now reason) (sym, ms)
          = Except.ok st2 →
        alookup st2.active_positions sym = none) := by
  obtain ⟨pos, hpos⟩ := Option.isSome_iff_exists.mp hopen
  have hx : exit_position st sym now reason =
      { st with active_positions := aremove st.active_positions sym,
                cooldowns := aset st.cooldowns sym (now + 5) } := by
    unfold exit_position
    rw [hpos]
  have hcd : alookup (exit_position st sym now reason).cooldowns sym
      = some (now + 5) := by
    rw [hx]
    exact alookup_aset_self _ _ _
  have hap : alookup (exit_position st sym now reason).active_positions sym
      = none := by
    rw [hx]
    exact alookup_aremove_self _ _
  refine ⟨hcd, hap, fun t => ?_, fun env2 cfg ms st2 hlt hcycle => ?_⟩
  · unfold in_cooldown
    rw [hcd]
  · have hcdt : in_cooldown (exit_position st sym now reason).cooldowns sym
        env2.now = true := by
      unfold in_cooldown
      rw [hcd]
      simpa using hlt
    have hkeep := cycle_step_cooldown_keeps_positions env2 cfg _ sym ms st2
      hcdt hcycle
    rw [hkeep, hap]

/-- C6, witness: exiting the open BTCUSDT position of `st1` at minute 1000
sets a cooldown until 1005 and removes the position; at minute 1004 the
cooldown holds and a full cycle at minute 1004 leaves the symbol flat. -/
theorem C6_exit_cooldown_blocks_reentry_witness :
    alookup (exit_position st1 "BTCUSDT" 1000 "No profit after 15m").cooldowns
      "BTCUSDT" = some (1000 + 5)
    ∧ alookup (exit_position st1 "BTCUSDT" 1000
        "No profit after 15m").active_positions "BTCUSDT" = none
    ∧ in_cooldown (exit_position st1 "BTCUSDT" 1000
        "No profit after 15m").cooldowns "BTCUSDT" 1004
        = decide ((1004 : ℚ) < 1000 + 5)
    ∧ alookup st_cooled.active_positions "BTCUSDT" = none := by
  have h := C6_exit_cooldown_blocks_reentry st1 "BTCUSDT" 1000
    "No profit after 15m" (by simp [st1, alookup])
  refine ⟨h.1, h.2.1, h.2.2.1 1004, h.2.2.2 { env0 with now := 1004 } cfg0 ms0
    st_cooled (by simp [env0]; norm_num) ?_⟩
  simp [cycle_step, calculate_ev_for_symbol, estimate_probability, estimate_gain,
    estimate_loss, estimate_fees, classify_ev, recommend_leverage, dynamic_kelly,
    record_history, check_risk, check_circuit_breaker, in_cooldown, maybe_exit,
    maybe_rotate, exit_position, enter_position, mock_order, EVResult.getNum,
    pydiv, npclip, fget, alookup, aset, aremove, env0, cfg0, st1, pos1, ms0,
    rs0, st_cooled, entry1, Except.bind, bind, pure, Except.pure]
  norm_num

/-- C2 (amended): a flat symbol is opened during a cycle only if the
executor's own risk check passes — the circuit breaker reports inactive and
the EV is at least -0.05 — the symbol is not in cooldown, and the EV
strictly exceeds the configured base threshold.  (The Risk Manager's
`pre_trade_check`, with its drawdown and margin-health legs, is not on the
entry path; see the counterexample.) -/
theorem C2_flat_entry_gate (env : Env) (cfg : Config) (st : ExecState)
    (sym : String) (ms : Feat) (st' : ExecState) (evr : EVResult)
    (hist' : List TradeHistoryEntry)
    (hflat : alookup st.active_positions sym = none)
    (hcalc : calculate_ev_for_symbol env cfg st.ev_history sym ms
      = Except.ok (some evr, hist'))
    (hcycle : cycle_step env cfg st (sym, ms) = Except.ok st')
    (hopen : (alookup st'.active_positions sym).isSome = true) :
    (check_circuit_breaker env.now st.risk).map Prod.fst = Except.ok false
    ∧ ¬ evr.EV < -0.05
    ∧ in_cooldown st.cooldowns sym env.now = false
    ∧ evr.EV > cfg.base_threshold := by
  cases hcb : check_circuit_breaker env.now st.risk with
  | error e =>
    rw [show cycle_step env cfg st (sym, ms) = Except.error e by
      simp [cycle_step, hcalc, check_risk, hcb, Except.bind, bind]] at hcycle
    exact absurd hcycle (by simp)
  | ok br =>
    obtain ⟨tripped, risk0⟩ := br
    cases tripped with
    | true =>
      rw [show cycle_step env cfg st (sym, ms)
          = Except.ok { st with ev_history := hist', risk := risk0 } by
        simp [cycle_step, hcalc, check_risk, hcb, Except.bind, bind]] at hcycle
      simp only [Except.ok.injEq] at hcycle
      rw [← hcycle] at hopen
      simp [hflat] at hopen
    | false =>
      by_cases hev : evr.EV < -0.05
      · rw [show cycle_step env cfg st (sym, ms)
            = Except.ok { st with ev_history := hist', risk := risk0 } by
          simp [cycle_step, hcalc, check_risk, hcb, hev, Except.bind, bind]] at hcycle
        simp only [Except.ok.injEq] at hcycle
        rw [← hcycle] at hopen
        simp [hflat] at hopen
      · by_cases hcdq : in_cooldown st.cooldowns sym env.now = true
        · rw [show cycle_step env cfg st (sym, ms)
              = Except.ok { st with ev_history := hist', risk := risk0 } by
            simp [cycle_step, hcalc, check_risk, hcb, hev, hcdq,
              Except.bind, bind]] at hcycle
          simp only [Except.ok.injEq] at hcycle
          rw [← hcycle] at hopen
          simp [hflat] at hopen
        · have hcdf : in_cooldown st.cooldowns sym env.now = false := by
            simpa using hcdq
          by_cases hth : evr.EV > cfg.base_threshold
          · exact ⟨by simp [hcb, Except.map], hev, hcdf, hth⟩
          · rw [show cycle_step env cfg st (sym, ms)
                = Except.ok { st with ev_history := hist', risk := risk0 } by
              simp [cycle_step, hcalc, check_risk, hcb, hev, hcdf, hflat, hth,
                Except.bind, bind]] at hcycle
            simp only [Except.ok.injEq] at hcycle
            rw [← hcycle] at hopen
            simp [hflat] at hopen

lemma cycle_step_enters_concrete :
    cycle_step env0 cfg0 st0 ("BTCUSDT", ms0) = Except.ok st_entered := by
  simp [cycle_step, calculate_ev_for_symbol, estimate_probability, estimate_gain,
    estimate_loss, estimate_fees, classify_ev, recommend_leverage, dynamic_kelly,
    record_history, check_risk, check_circuit_breaker, in_cooldown, maybe_exit,
    maybe_rotate, exit_position, enter_position, mock_order, EVResult.getNum,
    pydiv, npclip, fget, alookup, aset, aremove, env0, cfg0, st0, ms0, rs0,
    st_entered, posEntry, order1, entry1, Except.bind, bind, pure, Except.pure]
  norm_num
  simp [alookup]

/-- C2, counterexample to the claim as stated: under `env0` the margin
ratio (0) is below the configured health threshold (0.5), so the Risk
Manager's `pre_trade_check` rejects the trade — yet the same cycle opens a
position for flat BTCUSDT, because `execute_cycle` consults only the
executor's `_check_risk` (breaker + EV ≥ -0.05), never `pre_trade_check`. -/
theorem C2_entry_despite_failed_pre_trade_check :
    (pre_trade_check env0 cfg0 st0.risk (16351/15000)).1 = false
    ∧ (calculate_ev_for_symbol env0 cfg0 [] "BTCUSDT" ms0).map
        (fun p => Option.map (fun r => r.EV) p.1) = Except.ok (some (16351/15000))
    ∧ (cycle_step env0 cfg0 st0 ("BTCUSDT", ms0)).map
        (fun s => (alookup s.active_positions "BTCUSDT").isSome)
      = Except.ok true := by
  refine ⟨?_, ?_, ?_⟩
  · simp [pre_trade_check, check_drawdown, check_margin_health,
      trigger_circuit_breaker, env0, cfg0, st0, rs0]
    norm_num
  · rw [calc_concrete]
    simp [Except.map, evr1]
  · rw [cycle_step_enters_concrete]
    simp [Except.map, st_entered, posEntry, alookup]

/-- C2, witness: the concrete entry of `st_entered` indeed satisfies the
amended gate: breaker inactive, EV at least -0.05, no cooldown, EV above
the base threshold. -/
theorem C2_flat_entry_gate_witness :
    (check_circuit_breaker env0.now st0.risk).map Prod.fst = Except.ok false
    ∧ ¬ evr1.EV < -0.05
    ∧ in_cooldown st0.cooldowns "BTCUSDT" env0.now = false
    ∧ evr1.EV > cfg0.base_threshold :=
  C2_flat_entry_gate env0 cfg0 st0 "BTCUSDT" ms0 st_entered evr1 [entry1]
    (by simp [st0, alookup]) calc_concrete cycle_step_enters_concrete
    (by simp [st_entered, posEntry, alookup])
